import Mathlib

/-!
Verification development for the IPU PY treasury server
(src/archive/legacy-versions/server.py).

The file shallowly embeds the request handler `TreasurerHandler`
(`do_GET`, `do_POST`) and the schema initializer `setup_database`,
together with the relevant semantics of their collaborators:

* the filesystem is an explicit state (`FileSystem`): a set of
  directories plus an association list of files, where the most
  recent write to a path shadows earlier ones;
* `datetime.now().strftime` is modelled by an explicit `DateTime`
  value (microseconds included, since `datetime.now` carries them and
  the format string drops them) passed to the handler;
* the Python built-in `int(x)` is modelled faithfully for the inputs
  it receives here: `int(None)` raises `TypeError`, `int(s)` for a
  string strips whitespace, accepts an optional sign followed by
  digits, and otherwise raises `ValueError`;
* `rfile.read(n)` returns the first `n` bytes of the stream for
  `n >= 0` and the whole remaining stream for negative `n`;
* the SQLite store is modelled by a `Database` state with the SQLite
  semantics the code actually gets: `CREATE TABLE IF NOT EXISTS` never
  raises a duplicate-table error, NOT NULL constraints are enforced on
  insert, and FOREIGN KEY clauses are recorded but only enforced when
  the per-connection `foreign_keys` pragma is on — the pragma defaults
  to off and `server.py` never issues `PRAGMA foreign_keys = ON`.
  `REAL` values are modelled as exact rationals; none of the claims
  below depends on floating-point rounding.
-/

deriving instance DecidableEq for Except

/-- Python exception kinds that the handler code can raise. -/
inductive PyError where
  | typeError
  | valueError
deriving DecidableEq, Repr

/-- An incoming HTTP request as the handler sees it: the request path,
the raw value of the Content-Length header (`none` when the header is
absent, in which case `self.headers` yields Python `None`), and the
readable byte stream `self.rfile`. Bytes are naturals below 256; no
claim depends on the bound. -/
structure Request where
  path : String
  contentLength : Option String
  rfile : List Nat
deriving DecidableEq, Repr

/-- Whitespace characters stripped by Python `int()` conversion. -/
def isPySpace (c : Char) : Bool :=
  c = ' ' || c = '\t' || c = '\n' || c = '\r' || c = '\x0b' || c = '\x0c'

/-- Strip leading and trailing whitespace from a character list. -/
def pyTrimChars (cs : List Char) : List Char :=
  ((cs.dropWhile isPySpace).reverse.dropWhile isPySpace).reverse

/-- Numeric value of a digit string (most significant first). -/
def digitsVal (cs : List Char) : Nat :=
  cs.foldl (fun n c => n * 10 + (c.toNat - 48)) 0

/-- Parse a nonempty all-digit character list, `none` otherwise. -/
def parseDigits (cs : List Char) : Option Nat :=
  if !cs.isEmpty && cs.all Char.isDigit then some (digitsVal cs) else none

/-- Core of Python `int(s)` on an already-stripped character list:
an optional sign followed by at least one digit, else `ValueError`. -/
def pyIntChars : List Char → Except PyError Int
  | '-' :: rest =>
      match parseDigits rest with
      | some n => Except.ok (-(n : Int))
      | none => Except.error PyError.valueError
  | '+' :: rest =>
      match parseDigits rest with
      | some n => Except.ok (n : Int)
      | none => Except.error PyError.valueError
  | cs =>
      match parseDigits cs with
      | some n => Except.ok (n : Int)
      | none => Except.error PyError.valueError

/-- Python `int(s)` for a string argument. -/
def pyInt (s : String) : Except PyError Int :=
  pyIntChars (pyTrimChars s.data)

/-- Python `int(self.headers[...])`: the header lookup yields `None`
when the header is absent, and `int(None)` raises `TypeError`. -/
def pyIntOfHeader : Option String → Except PyError Int
  | none => Except.error PyError.typeError
  | some s => pyInt s

/-- Python `rfile.read(n)`: the first `n` bytes for nonnegative `n`,
the whole remaining stream for negative `n`. -/
def pyRead (stream : List Nat) (n : Int) : List Nat :=
  if n < 0 then stream else stream.take n.toNat

/-- Wall-clock instant as produced by `datetime.now()`: second fields
plus microseconds, which the format string `%Y%m%d_%H%M%S` discards. -/
structure DateTime where
  year : Nat
  month : Nat
  day : Nat
  hour : Nat
  minute : Nat
  second : Nat
  micro : Nat
deriving DecidableEq, Repr

/-- Zero-pad a natural to two digits, as `%m`, `%d`, `%H`, `%M`, `%S` do. -/
def pad2 (n : Nat) : String :=
  if n < 10 then "0" ++ toString n else toString n

/-- Zero-pad a natural to four digits, as CPython `%Y` does. -/
def pad4 (n : Nat) : String :=
  if n < 10 then "000" ++ toString n
  else if n < 100 then "00" ++ toString n
  else if n < 1000 then "0" ++ toString n
  else toString n

/-- `datetime.strftime` with format `%Y%m%d_%H%M%S`. -/
def strftimeUpload (t : DateTime) : String :=
  pad4 t.year ++ pad2 t.month ++ pad2 t.day ++ "_" ++
    pad2 t.hour ++ pad2 t.minute ++ pad2 t.second

/-- Two instants fall in the same wall-clock second: all fields agree
except possibly the microseconds. -/
def sameSecond (t1 t2 : DateTime) : Prop :=
  t1.year = t2.year ∧ t1.month = t2.month ∧ t1.day = t2.day ∧
    t1.hour = t2.hour ∧ t1.minute = t2.minute ∧ t1.second = t2.second

/-- Filesystem state: existing directories, and files as an
association list from path to byte content where the head entry for a
path is its current content (a later write shadows an earlier one). -/
structure FileSystem where
  dirs : List String
  files : List (String × List Nat)
deriving DecidableEq, Repr

/-- `Path.mkdir(exist_ok=True)`: create the directory, no error and no
change when it already exists. -/
def mkdirExistOk (fs : FileSystem) (d : String) : FileSystem :=
  if fs.dirs.contains d then fs else { fs with dirs := d :: fs.dirs }

/-- `open(path, 'wb')` followed by `f.write(content)`: the path now
maps to exactly `content`, shadowing any previous content. -/
def writeFile (fs : FileSystem) (p : String) (content : List Nat) : FileSystem :=
  { fs with files := (p, content) :: fs.files }

/-- Current content of a file, `none` when it does not exist. -/
def readFile (fs : FileSystem) (p : String) : Option (List Nat) :=
  fs.files.lookup p

/-- The upload target path: `Path("uploads") / f"informe_{timestamp}.jpg"`
rendered by `str(...)`. -/
def uploadFilePath (t : DateTime) : String :=
  "uploads/informe_" ++ strftimeUpload t ++ ".jpg"

/-- `json.dumps({"status": "success", "file": str(file_path)}).encode()`. -/
def jsonUploadResponse (file_path : String) : String :=
  "\x7b\"status\": \"success\", \"file\": \"" ++ file_path ++ "\"\x7d"

/-- An HTTP response as assembled by the handler: status code, the
optional Content-type header, and the body bytes (decoded). -/
structure HttpResponse where
  status : Nat
  contentType : Option String
  body : String
deriving DecidableEq, Repr

/-- `TreasurerHandler.do_POST`, with the wall clock and the filesystem
passed explicitly. The result pairs the filesystem after the call with
either the response sent or the Python exception that escaped the
handler (in which case no response is sent on the socket). -/
def do_POST (req : Request) (now : DateTime) (fs : FileSystem) :
    FileSystem × Except PyError HttpResponse :=
  if req.path = "/api/upload" then
    match pyIntOfHeader req.contentLength with
    | Except.error e => (fs, Except.error e)
    | Except.ok content_length =>
        let post_data := pyRead req.rfile content_length
        let fs1 := mkdirExistOk fs "uploads"
        let file_path := uploadFilePath now
        let fs2 := writeFile fs1 file_path post_data
        (fs2, Except.ok { status := 200, contentType := some "application/json",
                          body := jsonUploadResponse file_path })
  else
    (fs, Except.ok { status := 404, contentType := none, body := "" })

/-- `TreasurerHandler.do_GET`: rewrite the root path to the default
document, then delegate `self.path` to
`SimpleHTTPRequestHandler.do_GET`. The returned string is the path
handed to that static-file collaborator. -/
def do_GET (path : String) : String :=
  if path = "/" then "/index.html" else path

/-- SQLite storage classes as they appear in this schema. `REAL` is
modelled by exact rationals; `NULL` is its own value, as in SQL. -/
inductive SqlValue where
  | null
  | intv (i : Int)
  | realv (q : Rat)
  | textv (s : String)
deriving DecidableEq, Repr

/-- A column declaration: name, declared type text, and whether the
declaration carries NOT NULL. -/
structure Column where
  name : String
  sqltype : String
  notNull : Bool
deriving DecidableEq, Repr

/-- A table declaration: its name, columns, and FOREIGN KEY clauses as
(local column, referenced table, referenced column) triples. -/
structure TableSchema where
  name : String
  columns : List Column
  foreignKeys : List (String × String × String)
deriving DecidableEq, Repr

/-- The `churches` table exactly as declared by `setup_database`. -/
def churchesTable : TableSchema :=
  { name := "churches"
    columns :=
      [ { name := "id", sqltype := "INTEGER PRIMARY KEY AUTOINCREMENT", notNull := false }
      , { name := "name", sqltype := "TEXT", notNull := true }
      , { name := "city", sqltype := "TEXT", notNull := true }
      , { name := "pastor", sqltype := "TEXT", notNull := true }
      , { name := "phone", sqltype := "TEXT", notNull := false }
      , { name := "created_at", sqltype := "TIMESTAMP DEFAULT CURRENT_TIMESTAMP", notNull := false } ]
    foreignKeys := [] }

/-- The `reports` table exactly as declared by `setup_database`. -/
def reportsTable : TableSchema :=
  { name := "reports"
    columns :=
      [ { name := "id", sqltype := "INTEGER PRIMARY KEY AUTOINCREMENT", notNull := false }
      , { name := "church_id", sqltype := "INTEGER", notNull := true }
      , { name := "month", sqltype := "TEXT", notNull := true }
      , { name := "tithes", sqltype := "REAL", notNull := true }
      , { name := "offerings", sqltype := "REAL", notNull := true }
      , { name := "national_contribution", sqltype := "REAL", notNull := true }
      , { name := "bank_receipt", sqltype := "TEXT", notNull := false }
      , { name := "deposit_date", sqltype := "DATE", notNull := false }
      , { name := "photo_path", sqltype := "TEXT", notNull := false }
      , { name := "created_at", sqltype := "TIMESTAMP DEFAULT CURRENT_TIMESTAMP", notNull := false } ]
    foreignKeys := [("church_id", "churches", "id")] }

/-- A row of `churches`; the id is system-assigned. -/
structure ChurchRow where
  id : Int
  name : SqlValue
  city : SqlValue
  pastor : SqlValue
  phone : SqlValue
  created_at : SqlValue
deriving DecidableEq, Repr

/-- A row of `reports`. -/
structure ReportRow where
  id : Int
  church_id : SqlValue
  month : SqlValue
  tithes : SqlValue
  offerings : SqlValue
  national_contribution : SqlValue
  bank_receipt : SqlValue
  deposit_date : SqlValue
  photo_path : SqlValue
  created_at : SqlValue
deriving DecidableEq, Repr

/-- State of the SQLite store: declared tables, the rows of the two
tables of this schema, and the per-connection `foreign_keys` pragma.
SQLite ships with the pragma off, and `server.py` never issues
`PRAGMA foreign_keys = ON`, so every connection the code opens has
`foreign_keys = false`. -/
structure Database where
  schemas : List TableSchema
  churches : List ChurchRow
  reports : List ReportRow
  foreign_keys : Bool
deriving DecidableEq, Repr

/-- A freshly created store file: no tables, no rows, pragma off. -/
def emptyDatabase : Database :=
  { schemas := [], churches := [], reports := [], foreign_keys := false }

/-- Whether a table with the given name has been declared. -/
def tableExists (db : Database) (n : String) : Bool :=
  db.schemas.any (fun s => s.name == n)

/-- SQLite errors relevant to this schema. -/
inductive SqlError where
  | duplicateTable (n : String)
  | noSuchTable (n : String)
  | notNullViolation (column : String)
  | foreignKeyViolation
deriving DecidableEq, Repr

/-- `CREATE TABLE` without IF NOT EXISTS: errors on a duplicate name. -/
def createTable (db : Database) (ts : TableSchema) : Except SqlError Database :=
  if tableExists db ts.name then Except.error (SqlError.duplicateTable ts.name)
  else Except.ok { db with schemas := db.schemas ++ [ts] }

/-- `CREATE TABLE IF NOT EXISTS`: skip silently when the name exists. -/
def createTableIfNotExists (db : Database) (ts : TableSchema) : Except SqlError Database :=
  if tableExists db ts.name then Except.ok db else createTable db ts

/-- `setup_database` from server.py: open the store, CREATE TABLE IF
NOT EXISTS for `churches` then for `reports`, commit, close. Commit
and close do not change the modelled state. -/
def setup_database (db : Database) : Except SqlError Database :=
  (createTableIfNotExists db churchesTable).bind
    (fun db1 => createTableIfNotExists db1 reportsTable)

/-- Calling `setup_database` N times in sequence, stopping on error. -/
def setupN : Nat → Database → Except SqlError Database
  | 0, db => Except.ok db
  | n + 1, db => (setup_database db).bind (setupN n)

/-- Whether a church row with the given id exists. -/
def churchExists (db : Database) (v : SqlValue) : Bool :=
  db.churches.any (fun c => SqlValue.intv c.id == v)

/-- `INSERT INTO reports ...` under SQLite semantics: the table must
exist, NOT NULL columns reject NULL values, and the FOREIGN KEY clause
on `church_id` is checked only when the `foreign_keys` pragma is on. -/
def insertReport (db : Database) (r : ReportRow) : Except SqlError Database :=
  if !tableExists db "reports" then Except.error (SqlError.noSuchTable "reports")
  else if r.church_id = SqlValue.null then Except.error (SqlError.notNullViolation "church_id")
  else if r.month = SqlValue.null then Except.error (SqlError.notNullViolation "month")
  else if r.tithes = SqlValue.null then Except.error (SqlError.notNullViolation "tithes")
  else if r.offerings = SqlValue.null then Except.error (SqlError.notNullViolation "offerings")
  else if r.national_contribution = SqlValue.null then
    Except.error (SqlError.notNullViolation "national_contribution")
  else if db.foreign_keys && !churchExists db r.church_id then
    Except.error SqlError.foreignKeyViolation
  else Except.ok { db with reports := db.reports ++ [r] }

/-- The store state right after the first `setup_database` on a fresh
file: both tables declared, no rows, pragma still off. -/
def dbInit : Database :=
  { schemas := [churchesTable, reportsTable], churches := [], reports := [],
    foreign_keys := false }

/-- Sample request used in concrete checks below. -/
def reqMissingLen : Request :=
  { path := "/api/upload", contentLength := none, rfile := [] }

/-- Sample request whose Content-Length header is not numeric. -/
def reqBadLen : Request :=
  { path := "/api/upload", contentLength := some "abc", rfile := [7, 8] }

/-- Sample instant used in concrete checks below. -/
def t0 : DateTime :=
  { year := 2025, month := 7, day := 15, hour := 12, minute := 0, second := 0, micro := 0 }

/-- Empty filesystem used in concrete checks below. -/
def fs0 : FileSystem := { dirs := [], files := [] }

/-- A report row whose church reference matches no church row. -/
def danglingReport : ReportRow :=
  { id := 1, church_id := SqlValue.intv 1, month := SqlValue.textv "2024-01",
    tithes := SqlValue.realv 100, offerings := SqlValue.realv 50,
    national_contribution := SqlValue.realv 15, bank_receipt := SqlValue.null,
    deposit_date := SqlValue.null, photo_path := SqlValue.null,
    created_at := SqlValue.textv "2024-01-31 12:00:00" }

/-- A report row with a negative tithes amount. -/
def negativeReport : ReportRow :=
  { id := 2, church_id := SqlValue.intv 1, month := SqlValue.textv "2024-02",
    tithes := SqlValue.realv (-100), offerings := SqlValue.realv 50,
    national_contribution := SqlValue.realv 15, bank_receipt := SqlValue.null,
    deposit_date := SqlValue.null, photo_path := SqlValue.null,
    created_at := SqlValue.textv "2024-02-28 12:00:00" }

/-- Reading `n` bytes from a stream with `n` given as a natural. -/
lemma pyRead_ofNat (stream : List Nat) (n : Nat) :
    pyRead stream (Int.ofNat n) = stream.take n := by
  simp [pyRead]

/-- Reading exactly the length of the stream returns the whole stream. -/
lemma pyRead_length (stream : List Nat) :
    pyRead stream (Int.ofNat stream.length) = stream := by
  rw [pyRead_ofNat, List.take_length]

/-- A freshly written file reads back as exactly what was written. -/
lemma readFile_writeFile (fs : FileSystem) (p : String) (c : List Nat) :
    readFile (writeFile fs p c) p = some c := by
  simp [readFile, writeFile, List.lookup]

/-- What `do_POST` does on the upload route once the length header has
parsed: it reads, creates the directory, writes, and answers 200. -/
lemma do_POST_upload_eq (req : Request) (now : DateTime) (fs : FileSystem) (n : Int)
    (hpath : req.path = "/api/upload")
    (hlen : pyIntOfHeader req.contentLength = Except.ok n) :
    do_POST req now fs =
      (writeFile (mkdirExistOk fs "uploads") (uploadFilePath now) (pyRead req.rfile n),
       Except.ok { status := 200, contentType := some "application/json",
                   body := jsonUploadResponse (uploadFilePath now) }) := by
  unfold do_POST
  rw [hpath, hlen]
  rfl

/-- What `do_POST` does on the upload route when the length header
conversion raises: the exception escapes, nothing else happens. -/
lemma do_POST_upload_raise_eq (req : Request) (now : DateTime) (fs : FileSystem) (e : PyError)
    (hpath : req.path = "/api/upload")
    (herr : pyIntOfHeader req.contentLength = Except.error e) :
    do_POST req now fs = (fs, Except.error e) := by
  unfold do_POST
  rw [hpath, herr]
  rfl

/-- Instants in the same second format identically. -/
lemma strftimeUpload_sameSecond (t1 t2 : DateTime) (h : sameSecond t1 t2) :
    strftimeUpload t1 = strftimeUpload t2 := by
  obtain ⟨hy, hmo, hd, hh, hmi, hs⟩ := h
  unfold strftimeUpload
  rw [hy, hmo, hd, hh, hmi, hs]

/-- Instants in the same second target the same upload path. -/
lemma uploadFilePath_sameSecond (t1 t2 : DateTime) (h : sameSecond t1 t2) :
    uploadFilePath t1 = uploadFilePath t2 := by
  unfold uploadFilePath
  rw [strftimeUpload_sameSecond t1 t2 h]

/-- Pure effect of `CREATE TABLE IF NOT EXISTS` on the store state. -/
def addTable (db : Database) (ts : TableSchema) : Database :=
  if tableExists db ts.name then db else { db with schemas := db.schemas ++ [ts] }

/-- Pure effect of one `setup_database` call on the store state. -/
def setupF (db : Database) : Database :=
  addTable (addTable db churchesTable) reportsTable

/-- `CREATE TABLE IF NOT EXISTS` never errors; its effect is `addTable`. -/
lemma createTableIfNotExists_eq (db : Database) (ts : TableSchema) :
    createTableIfNotExists db ts = Except.ok (addTable db ts) := by
  unfold createTableIfNotExists createTable addTable
  by_cases h : tableExists db ts.name <;> simp [h]

/-- `setup_database` never errors; its effect is `setupF`. -/
lemma setup_database_eq (db : Database) :
    setup_database db = Except.ok (setupF db) := by
  unfold setup_database setupF
  rw [createTableIfNotExists_eq]
  simp [Except.bind, createTableIfNotExists_eq]

/-- `addTable` never touches the `churches` rows. -/
lemma addTable_churches (db : Database) (ts : TableSchema) :
    (addTable db ts).churches = db.churches := by
  unfold addTable
  split <;> rfl

/-- `addTable` never touches the `reports` rows. -/
lemma addTable_reports (db : Database) (ts : TableSchema) :
    (addTable db ts).reports = db.reports := by
  unfold addTable
  split <;> rfl

/-- `addTable` never touches the `foreign_keys` pragma. -/
lemma addTable_foreign_keys (db : Database) (ts : TableSchema) :
    (addTable db ts).foreign_keys = db.foreign_keys := by
  unfold addTable
  split <;> rfl

/-- After `addTable db ts`, a table named `ts.name` exists. -/
lemma tableExists_addTable_self (db : Database) (ts : TableSchema) :
    tableExists (addTable db ts) ts.name = true := by
  unfold addTable
  by_cases h : tableExists db ts.name
  · simp [h]
  · simp only [h, if_false]
    unfold tableExists at h ⊢
    simp [List.any_append]

/-- `addTable` preserves existing tables. -/
lemma tableExists_addTable_mono (db : Database) (ts : TableSchema) (n : String)
    (h : tableExists db n = true) :
    tableExists (addTable db ts) n = true := by
  unfold addTable
  by_cases hex : tableExists db ts.name
  · simpa [hex]
  · simp only [hex, if_false]
    unfold tableExists at h ⊢
    simp [List.any_append, h]

/-- `addTable` is a no-op once the table exists. -/
lemma addTable_of_exists (db : Database) (ts : TableSchema)
    (h : tableExists db ts.name = true) :
    addTable db ts = db := by
  unfold addTable
  simp [h]

/-- Both tables exist after one `setup_database`. -/
lemma tableExists_setupF_churches (db : Database) :
    tableExists (setupF db) "churches" = true := by
  unfold setupF
  exact tableExists_addTable_mono _ _ _ (tableExists_addTable_self db churchesTable)

/-- Both tables exist after one `setup_database`. -/
lemma tableExists_setupF_reports (db : Database) :
    tableExists (setupF db) "reports" = true := by
  unfold setupF
  exact tableExists_addTable_self _ reportsTable

/-- A second `setup_database` changes nothing. -/
lemma setupF_idem (db : Database) :
    setupF (setupF db) = setupF db := by
  have h1 : addTable (setupF db) churchesTable = setupF db :=
    addTable_of_exists _ _ (tableExists_setupF_churches db)
  have h2 : addTable (setupF db) reportsTable = setupF db :=
    addTable_of_exists _ _ (tableExists_setupF_reports db)
  show addTable (addTable (setupF db) churchesTable) reportsTable = setupF db
  rw [h1, h2]

/-- Once the schema is set up, further calls are fixed at that state. -/
lemma setupN_fixed (n : Nat) (db : Database) :
    setupN n (setupF db) = Except.ok (setupF db) := by
  induction n generalizing db with
  | zero => rfl
  | succ k ih =>
      show (setup_database (setupF db)).bind (setupN k) = _
      rw [setup_database_eq, setupF_idem]
      exact ih db

/-- Any positive number of `setup_database` calls equals one call. -/
lemma setupN_succ_eq (n : Nat) (db : Database) :
    setupN (n + 1) db = Except.ok (setupF db) := by
  show (setup_database db).bind (setupN n) = _
  rw [setup_database_eq]
  exact setupN_fixed n db

/-- One call from a fresh store yields exactly the declared schema. -/
lemma setupF_empty : setupF emptyDatabase = dbInit := by decide

/-- A sample request whose Content-Length matches its body exactly. -/
def reqOk : Request :=
  { path := "/api/upload", contentLength := some "3", rfile := [7, 8, 9] }

/-- A sample upload request with body [1, 2]. -/
def reqB : Request :=
  { path := "/api/upload", contentLength := some "2", rfile := [1, 2] }

/-- A sample POST request to a path other than the upload path. -/
def reqOther : Request :=
  { path := "/api/report", contentLength := some "5", rfile := [1, 2, 3, 4, 5] }

/-- A sample request whose stream holds more bytes than declared. -/
def reqLong : Request :=
  { path := "/api/upload", contentLength := some "2", rfile := [5, 6, 7, 8] }

/-- A sample request sharing the first two stream bytes with `reqLong`. -/
def reqLong2 : Request :=
  { path := "/api/upload", contentLength := some "2", rfile := [5, 6, 1] }

/-- Two instants in the same wall-clock second, microseconds apart. -/
def t1c : DateTime :=
  { year := 2025, month := 7, day := 15, hour := 12, minute := 0, second := 0,
    micro := 111111 }

/-- Two instants in the same wall-clock second, microseconds apart. -/
def t2c : DateTime :=
  { year := 2025, month := 7, day := 15, hour := 12, minute := 0, second := 0,
    micro := 999999 }

/-- A sample church row. -/
def sampleChurch : ChurchRow :=
  { id := 1, name := SqlValue.textv "IPU Asuncion", city := SqlValue.textv "Asuncion",
    pastor := SqlValue.textv "Juan Perez", phone := SqlValue.null,
    created_at := SqlValue.textv "2024-01-01 08:00:00" }

/-- An initialized store already holding one church row. -/
def dbWithChurch : Database :=
  { schemas := [churchesTable, reportsTable], churches := [sampleChurch], reports := [],
    foreign_keys := false }

/-- Claim C1: a POST to /api/upload whose Content-Length header parses
to exactly the number of bytes in the request stream gets an HTTP 200
response whose JSON body carries status "success" and the file path,
and afterwards that file holds byte-for-byte the request body. -/
theorem upload_success_persists_body (req : Request) (now : DateTime) (fs : FileSystem)
    (hpath : req.path = "/api/upload")
    (hlen : pyIntOfHeader req.contentLength = Except.ok (Int.ofNat req.rfile.length)) :
    (do_POST req now fs).2 =
      Except.ok { status := 200, contentType := some "application/json",
                  body := jsonUploadResponse (uploadFilePath now) } ∧
    readFile (do_POST req now fs).1 (uploadFilePath now) = some req.rfile := by
  rw [do_POST_upload_eq req now fs _ hpath hlen]
  refine ⟨rfl, ?_⟩
  rw [pyRead_length]
  exact readFile_writeFile _ _ _

/-- Witness for C1 at a concrete three-byte upload. -/
theorem upload_success_persists_body_witness :
    (do_POST reqOk t0 fs0).2 =
      Except.ok { status := 200, contentType := some "application/json",
                  body := jsonUploadResponse (uploadFilePath t0) } ∧
    readFile (do_POST reqOk t0 fs0).1 (uploadFilePath t0) = some reqOk.rfile :=
  upload_success_persists_body reqOk t0 fs0 rfl (by decide)

/-- Claim C2, counterexample: with the Content-Length header absent the
handler does not answer 404 with an empty body; the int conversion
raises TypeError and the exception escapes, so no response is sent. -/
theorem upload_missing_length_not_404 :
    (do_POST reqMissingLen t0 fs0).2 = Except.error PyError.typeError ∧
    (do_POST reqMissingLen t0 fs0).2 ≠
      Except.ok { status := 404, contentType := none, body := "" } := by
  exact ⟨rfl, by decide⟩

/-- Claim C2 as amended: for a POST to /api/upload whose Content-Length
header is absent (TypeError) or unparsable (ValueError), the conversion
raises and the exception escapes the handler unhandled: no response at
all is sent, rather than the 404 of an unmatched route. -/
theorem upload_bad_length_raises_unhandled (req : Request) (now : DateTime)
    (fs : FileSystem) (e : PyError)
    (hpath : req.path = "/api/upload")
    (herr : pyIntOfHeader req.contentLength = Except.error e) :
    do_POST req now fs = (fs, Except.error e) :=
  do_POST_upload_raise_eq req now fs e hpath herr

/-- Witness for the amended C2 at a concrete header-less request. -/
theorem upload_bad_length_raises_unhandled_witness :
    do_POST reqMissingLen t0 fs0 = (fs0, Except.error PyError.typeError) :=
  upload_bad_length_raises_unhandled reqMissingLen t0 fs0 PyError.typeError rfl rfl

/-- Claim C3: the store initialized by `setup_database` accepts a
report whose church_id matches no church row, because the FOREIGN KEY
clause is declared but SQLite enforcement is off: the code never issues
PRAGMA foreign_keys = ON. The declared schema documents the intended
invariant, so this is a bug in the code, not in the claim. -/
theorem insertReport_dangling_church_accepted :
    setup_database emptyDatabase = Except.ok dbInit ∧
    dbInit.churches = [] ∧
    churchExists dbInit danglingReport.church_id = false ∧
    insertReport dbInit danglingReport =
      Except.ok { dbInit with reports := [danglingReport] } := by
  exact ⟨by decide, rfl, by decide, by decide⟩

/-- Claim C4: `setup_database` is idempotent. Any positive number of
calls equals one call, that one call never errors (in particular no
duplicate-table error), it loses no rows of either table, both tables
exist afterwards, and from a fresh store N calls yield exactly the two
declared tables. -/
theorem setup_database_idempotent (db : Database) (N : Nat) (hN : 1 ≤ N) :
    (∃ db1, setup_database db = Except.ok db1 ∧
      setupN N db = Except.ok db1 ∧
      db1.churches = db.churches ∧ db1.reports = db.reports ∧
      tableExists db1 "churches" = true ∧ tableExists db1 "reports" = true) ∧
    setupN N emptyDatabase = Except.ok dbInit := by
  obtain ⟨k, rfl⟩ : ∃ k, N = k + 1 := ⟨N - 1, (Nat.succ_pred_eq_of_pos hN).symm⟩
  refine ⟨⟨setupF db, setup_database_eq db, setupN_succ_eq k db, ?_, ?_,
    tableExists_setupF_churches db, tableExists_setupF_reports db⟩, ?_⟩
  · unfold setupF
    rw [addTable_churches, addTable_churches]
  · unfold setupF
    rw [addTable_reports, addTable_reports]
  · rw [setupN_succ_eq k emptyDatabase, setupF_empty]

/-- Witness for C4: three calls on a store already holding a church. -/
theorem setup_database_idempotent_witness :
    (∃ db1, setup_database dbWithChurch = Except.ok db1 ∧
      setupN 3 dbWithChurch = Except.ok db1 ∧
      db1.churches = dbWithChurch.churches ∧ db1.reports = dbWithChurch.reports ∧
      tableExists db1 "churches" = true ∧ tableExists db1 "reports" = true) ∧
    setupN 3 emptyDatabase = Except.ok dbInit :=
  setup_database_idempotent dbWithChurch 3 (by decide)

/-- Claim C5: a POST to any path other than /api/upload is answered
with HTTP 404, no Content-type header, and an empty body, and the
filesystem is untouched. -/
theorem post_other_path_404 (req : Request) (now : DateTime) (fs : FileSystem)
    (hpath : req.path ≠ "/api/upload") :
    do_POST req now fs =
      (fs, Except.ok { status := 404, contentType := none, body := "" }) := by
  unfold do_POST
  rw [if_neg hpath]

/-- Witness for C5 at a concrete non-upload path. -/
theorem post_other_path_404_witness :
    do_POST reqOther t0 fs0 =
      (fs0, Except.ok { status := 404, contentType := none, body := "" }) :=
  post_other_path_404 reqOther t0 fs0 (by decide)

/-- Claim C6: two uploads handled within the same wall-clock second
derive the same filename, and after both complete the shared file holds
the second body: the first upload has been silently overwritten. -/
theorem upload_same_second_collision (req1 req2 : Request) (t1 t2 : DateTime)
    (fs : FileSystem)
    (hsec : sameSecond t1 t2)
    (hp1 : req1.path = "/api/upload") (hp2 : req2.path = "/api/upload")
    (hl1 : pyIntOfHeader req1.contentLength = Except.ok (Int.ofNat req1.rfile.length))
    (hl2 : pyIntOfHeader req2.contentLength = Except.ok (Int.ofNat req2.rfile.length)) :
    uploadFilePath t1 = uploadFilePath t2 ∧
    readFile (do_POST req1 t1 fs).1 (uploadFilePath t1) = some req1.rfile ∧
    readFile (do_POST req2 t2 (do_POST req1 t1 fs).1).1 (uploadFilePath t1) =
      some req2.rfile := by
  have hp := uploadFilePath_sameSecond t1 t2 hsec
  refine ⟨hp, ?_, ?_⟩
  · rw [do_POST_upload_eq req1 t1 fs _ hp1 hl1, pyRead_length]
    exact readFile_writeFile _ _ _
  · rw [do_POST_upload_eq req2 t2 _ _ hp2 hl2, hp, pyRead_length]
    exact readFile_writeFile _ _ _

/-- Witness for C6: two concrete uploads microseconds apart with
different bodies; the shared path ends up holding the second body. -/
theorem upload_same_second_collision_witness :
    uploadFilePath t1c = uploadFilePath t2c ∧
    readFile (do_POST reqOk t1c fs0).1 (uploadFilePath t1c) = some reqOk.rfile ∧
    readFile (do_POST reqB t2c (do_POST reqOk t1c fs0).1).1 (uploadFilePath t1c) =
      some reqB.rfile :=
  upload_same_second_collision reqOk reqB t1c t2c fs0
    ⟨rfl, rfl, rfl, rfl, rfl, rfl⟩ rfl rfl (by decide) (by decide)

/-- Claim C7, counterexample: the store accepts a report with a
negative tithes amount; no CHECK constraint enforces non-negativity. -/
theorem insertReport_negative_amount_accepted :
    negativeReport.tithes = SqlValue.realv (-100) ∧
    insertReport dbInit negativeReport =
      Except.ok { dbInit with reports := [negativeReport] } := by
  exact ⟨rfl, by decide⟩

/-- Claim C7 as amended: an accepted report insert has non-NULL
church_id, month, tithes, offerings and national_contribution (the NOT
NULL constraints are enforced), but non-negativity of the amounts is
not enforced by the store. -/
theorem insertReport_not_null_enforced (db : Database) (r : ReportRow) (db1 : Database)
    (h : insertReport db r = Except.ok db1) :
    r.church_id ≠ SqlValue.null ∧ r.month ≠ SqlValue.null ∧
    r.tithes ≠ SqlValue.null ∧ r.offerings ≠ SqlValue.null ∧
    r.national_contribution ≠ SqlValue.null := by
  unfold insertReport at h
  split_ifs at h
  simp_all

/-- Witness for the amended C7 at a concrete accepted insert. -/
theorem insertReport_not_null_enforced_witness :
    negativeReport.church_id ≠ SqlValue.null ∧ negativeReport.month ≠ SqlValue.null ∧
    negativeReport.tithes ≠ SqlValue.null ∧ negativeReport.offerings ≠ SqlValue.null ∧
    negativeReport.national_contribution ≠ SqlValue.null :=
  insertReport_not_null_enforced dbInit negativeReport
    { dbInit with reports := [negativeReport] } (by decide)

/-- Claim C8: `do_GET` rewrites the root path to /index.html before
delegating, so for any static-file collaborator the root path serves
exactly the content of /index.html. -/
theorem do_GET_root_default_document :
    do_GET "/" = "/index.html" ∧
    ∀ serveStatic : String → String, serveStatic (do_GET "/") = serveStatic "/index.html" :=
  ⟨rfl, fun _ => rfl⟩

/-- Claim C9: when the Content-Length conversion raises, the failure
happens before any filesystem mutation: the filesystem after the call
is exactly the filesystem before it, so no directory was created and no
file was written. -/
theorem upload_bad_length_fs_unchanged (req : Request) (now : DateTime)
    (fs : FileSystem) (e : PyError)
    (hpath : req.path = "/api/upload")
    (herr : pyIntOfHeader req.contentLength = Except.error e) :
    (do_POST req now fs).1 = fs := by
  rw [do_POST_upload_raise_eq req now fs e hpath herr]

/-- Witness for C9 at a concrete request with an unparsable header. -/
theorem upload_bad_length_fs_unchanged_witness :
    (do_POST reqBadLen t0 fs0).1 = fs0 :=
  upload_bad_length_fs_unchanged reqBadLen t0 fs0 PyError.valueError rfl (by decide)

/-- Claim C10: with declared length n, exactly the first n bytes of the
stream are persisted, and the persisted content depends only on the
declared length and the n-byte stream prefix: a second request with the
same declared length and the same prefix writes the same content. -/
theorem upload_writes_declared_prefix (req req2 : Request) (now : DateTime)
    (fs fs2 : FileSystem) (n : Nat)
    (hpath : req.path = "/api/upload")
    (hlen : pyIntOfHeader req.contentLength = Except.ok (Int.ofNat n))
    (hp2 : req2.path = "/api/upload")
    (hl2 : pyIntOfHeader req2.contentLength = Except.ok (Int.ofNat n))
    (hpre : req2.rfile.take n = req.rfile.take n) :
    readFile (do_POST req now fs).1 (uploadFilePath now) = some (req.rfile.take n) ∧
    readFile (do_POST req2 now fs2).1 (uploadFilePath now) = some (req.rfile.take n) := by
  constructor
  · rw [do_POST_upload_eq req now fs _ hpath hlen, pyRead_ofNat]
    exact readFile_writeFile _ _ _
  · rw [do_POST_upload_eq req2 now fs2 _ hp2 hl2, pyRead_ofNat, hpre]
    exact readFile_writeFile _ _ _

/-- Witness for C10: streams [5,6,7,8] and [5,6,1] with declared length
2 both persist exactly [5,6]. -/
theorem upload_writes_declared_prefix_witness :
    readFile (do_POST reqLong t0 fs0).1 (uploadFilePath t0) = some (reqLong.rfile.take 2) ∧
    readFile (do_POST reqLong2 t0 fs0).1 (uploadFilePath t0) = some (reqLong.rfile.take 2) :=
  upload_writes_declared_prefix reqLong reqLong2 t0 fs0 fs0 2 rfl (by decide) rfl
    (by decide) (by decide)
